import Mathlib

/-!
Shallow embedding of `sunpower_cryocooler.py` (Sunpower cryocooler driver).

The module has two layers:
* a pure reply parser `parse_single_value` that types the second element of
  a reply list as bool / int / float / string;
* a transaction engine (`_send_command`, `_read_reply`, `_send_and_read`,
  `connect`, `disconnect`) over a serial or TCP transport.

The transport itself (pyserial / socket) is modelled by its observable
outcomes (`WriteOutcome`, `ReadOutcome`); Python decimal float literals are
modelled exactly as rationals (all values appearing in the development,
such as 3.5 and 120.5, are exactly representable IEEE doubles, so the
rational model agrees with Python at every value used).
-/

namespace Sunpower

/-- Python `str.strip` whitespace class (ASCII part: space, \t, \n, \v, \f, \r). -/
def isPySpace (c : Char) : Bool := c = ' ' || (9 ≤ c.toNat && c.toNat ≤ 13)

/-- Strip `isPySpace` characters from both ends of a character list. -/
def stripChars (l : List Char) : List Char :=
  ((l.dropWhile isPySpace).reverse.dropWhile isPySpace).reverse

/-- Python `str.strip()` with no argument (ASCII whitespace part). -/
def pyStrip (s : String) : String := String.mk (stripChars s.toList)

/-- ASCII lower-casing of one character, as Python `str.lower` does on ASCII. -/
def lowerChar (c : Char) : Char :=
  if 'A' ≤ c && c ≤ 'Z' then Char.ofNat (c.toNat + 32) else c

/-- Python `str.lower()` (ASCII part). -/
def pyLower (s : String) : String := String.mk (s.toList.map lowerChar)

/-- Tail of a digit group in Python numeric literals accepted by `int()` /
`float()`: after a digit, the string may continue with digits, or with a
single underscore that must be followed by a digit. -/
def digitsTail : List Char → Bool
  | [] => true
  | ['_'] => false
  | '_' :: d :: rest => d.isDigit && digitsTail rest
  | c :: rest => c.isDigit && digitsTail rest

/-- A digit group accepted by Python `int()` / `float()`: nonempty, starts
with a digit, underscores only singly and between digits. -/
def digitsOK : List Char → Bool
  | [] => false
  | c :: rest => c.isDigit && digitsTail rest

/-- Numeric value of a digit group, ignoring underscores. -/
def digitsToNat (l : List Char) : Nat :=
  l.foldl (fun a c => if c = '_' then a else 10 * a + (c.toNat - '0'.toNat)) 0

/-- Model of Python's built-in `int(s)` on a string argument: strip
whitespace, optional sign, then a digit group; anything else raises
`ValueError`, modelled as `none`. -/
def pyIntParse (s : String) : Option Int :=
  match stripChars s.toList with
  | '+' :: rest => if digitsOK rest then some (digitsToNat rest) else none
  | '-' :: rest => if digitsOK rest then some (-(digitsToNat rest : Int)) else none
  | l => if digitsOK l then some (digitsToNat l) else none

/-- A Python float value as produced by `float(s)`: a finite value
(modelled exactly as a rational), a signed infinity, or a NaN. -/
inductive PyFloat where
  | finite (q : ℚ)
  | inf (neg : Bool)
  | nan
  deriving DecidableEq, Repr

/-- Split a character list at the first occurrence of `c`. -/
def splitAtChar (c : Char) : List Char → Option (List Char × List Char)
  | [] => none
  | x :: rest =>
    if x = c then some ([], rest)
    else
      match splitAtChar c rest with
      | none => none
      | some (a, b) => some (x :: a, b)

/-- Value of the mantissa part of a Python float literal: `digits`,
`digits.`, `.digits` or `digits.digits` (underscores per digit-group
rules). -/
def mantissaVal (m : List Char) : Option ℚ :=
  match splitAtChar '.' m with
  | none => if digitsOK m then some ((digitsToNat m : ℤ) : ℚ) else none
  | some (ip, fp) =>
    if (ip.isEmpty || digitsOK ip) && (fp.isEmpty || digitsOK fp)
        && !(ip.isEmpty && fp.isEmpty) then
      some ((digitsToNat ip : ℚ) +
        (digitsToNat fp : ℚ) / (10 : ℚ) ^ (fp.filter (fun c => c ≠ '_')).length)
    else none

/-- Value of the exponent part of a Python float literal (after `e`):
optional sign then a digit group. -/
def expVal : List Char → Option Int
  | '+' :: rest => if digitsOK rest then some (digitsToNat rest) else none
  | '-' :: rest => if digitsOK rest then some (-(digitsToNat rest : Int)) else none
  | l => if digitsOK l then some ((digitsToNat l : Int)) else none

/-- Model of Python's built-in `float(s)` on a string argument: strip
whitespace, lower-case, optional sign, then `inf`/`infinity`/`nan` or
`mantissa[e exponent]`; failure (Python `ValueError`) is `none`. -/
def pyFloatParse (s : String) : Option PyFloat :=
  let t := (stripChars s.toList).map lowerChar
  let signBody : Bool × List Char :=
    match t with
    | '+' :: r => (false, r)
    | '-' :: r => (true, r)
    | r => (false, r)
  let neg := signBody.1
  let body := signBody.2
  if body = "inf".toList || body = "infinity".toList then some (.inf neg)
  else if body = "nan".toList then some .nan
  else
    match splitAtChar 'e' body with
    | none => (mantissaVal body).map (fun q => .finite (if neg then -q else q))
    | some (m, e) =>
      match mantissaVal m, expVal e with
      | some q, some ex => some (.finite ((if neg then -q else q) * (10 : ℚ) ^ ex))
      | _, _ => none

/-- The tagged result of `parse_single_value`: Python returns one of
`bool`, `int`, `float` or `str`. -/
inductive ParsedValue where
  | bool (b : Bool)
  | int (n : Int)
  | float (f : PyFloat)
  | str (s : String)
  deriving DecidableEq, Repr

/-- Keywords mapped to boolean `True` (source line 23). -/
def truthyTokens : List String := ["true", "yes", "on", "1"]

/-- Keywords mapped to boolean `False` (source line 25). -/
def falseyTokens : List String := ["false", "no", "off", "0"]

/-- Body of `parse_single_value` for a present second element (source
lines 22-41): match the element, lower-cased, against the boolean
keywords; else try `int()`, then `float()`; else return the stripped
element. -/
def parseToken (val : String) : ParsedValue :=
  if pyLower val ∈ truthyTokens then .bool true
  else if pyLower val ∈ falseyTokens then .bool false
  else
    match pyIntParse val with
    | some n => .int n
    | none =>
      match pyFloatParse val with
      | some f => .float f
      | none => .str (pyStrip val)

/-- `parse_single_value(reply)` on a list argument: take `reply[1]`
(a raised `IndexError` gives the `"No reply"` sentinel), then type the
element with `parseToken`. -/
def parse_single_value (reply : List String) : ParsedValue :=
  match reply.get? 1 with
  | none => .str "No reply"
  | some val => parseToken val

/-- A Python runtime value passed as the argument of `parse_single_value`,
to model the dynamic `isinstance(reply, list)` check. Non-list variants
stand for the other runtime types an argument could have. -/
inductive PyObj where
  | pyList (xs : List String)
  | pyStr (s : String)
  | pyInt (n : Int)
  | pyNone
  deriving DecidableEq, Repr

/-- Outcome of a `parse_single_value` call: a returned value or a raised
`TypeError`. -/
inductive PyResult where
  | ok (v : ParsedValue)
  | typeError (msg : String)
  deriving DecidableEq, Repr

/-- `parse_single_value` including its leading dynamic type check: a
non-list argument raises `TypeError("reply must be a list")` before any
other processing; a list argument is parsed normally. -/
def parse_single_value_checked (arg : PyObj) : PyResult :=
  match arg with
  | .pyList xs => .ok (parse_single_value xs)
  | _ => .typeError "reply must be a list"

/-! Transaction engine. Python logging levels, numeric values as in the
`logging` module. -/

/-- Python `logging.DEBUG`. -/
def DEBUG : Nat := 10

/-- Python `logging.INFO`. -/
def INFO : Nat := 20

/-- Python `logging.WARNING`. -/
def WARNING : Nat := 30

/-- Python `logging.ERROR`. -/
def ERROR : Nat := 40

/-- One message emitted through `_log`: a level and a text. -/
structure LogMsg where
  level : Nat
  text : String
  deriving DecidableEq, Repr

/-- The `connection_type` attribute: `"serial"` or `"tcp"`. -/
inductive ConnType where
  | serial
  | tcp
  deriving DecidableEq, Repr

/-- Outcome of the transport write call (`ser.write` / `sock.sendall`):
success, or an exception with a message. -/
inductive WriteOutcome where
  | ok
  | fail (msg : String)
  deriving DecidableEq, Repr

/-- Outcome of the transport read call (`ser.read(1024)` /
`sock.recv(1024)`): a `socket.timeout` exception (TCP only; a serial
timeout instead returns empty bytes), received bytes given by their
decoded text (`decode(errors="replace")` never fails, so decoding is
folded into the outcome), or a transport exception
(`serial.SerialException` / `socket.error`). -/
inductive ReadOutcome where
  | timeout
  | bytes (raw : String)
  | readErr (msg : String)
  deriving DecidableEq, Repr

/-- The transport outcomes observed during one `_send_and_read`
transaction. -/
structure TransportEvents where
  write : WriteOutcome
  read : ReadOutcome
  deriving DecidableEq, Repr

/-- Python `str.splitlines` on the line boundaries occurring in this
protocol: `\n`, `\r` and `\r\n`; no trailing empty line for a trailing
terminator. -/
def splitlinesGo : List Char → List Char → List String
  | [], acc => if acc.isEmpty then [] else [String.mk acc.reverse]
  | '\r' :: '\n' :: rest, acc => String.mk acc.reverse :: splitlinesGo rest []
  | '\r' :: rest, acc => String.mk acc.reverse :: splitlinesGo rest []
  | '\n' :: rest, acc => String.mk acc.reverse :: splitlinesGo rest []
  | c :: rest, acc => splitlinesGo rest (c :: acc)

/-- Python `str.splitlines()`. -/
def splitlines (s : String) : List String := splitlinesGo s.toList []

/-- Python `repr` of a string, used only inside DEBUG log texts; the
escaping of control characters is abstracted away (no claim depends on
log text). -/
def pyRepr (s : String) : String := "\x27" ++ s ++ "\x27"

/-- Result of `_send_command`: either the command was written (with the
DEBUG log it emits), or the write raised and the exception is re-raised
after logging. The second component is the exact payload handed to the
transport write call. -/
inductive SendResult where
  | sent (logs : List LogMsg)
  | raised (msg : String) (logs : List LogMsg)
  deriving DecidableEq, Repr

/-- `_send_command` (source lines 116-127): append a single `"\r"` to the
command, write it; on success log `Sent command: ...` at the default
DEBUG level; on failure log at the default DEBUG level and re-raise. -/
def _send_command (command : String) (w : WriteOutcome) : SendResult × String :=
  let full_cmd := command ++ "\r"
  match w with
  | .ok => (.sent [⟨DEBUG, "Sent command: " ++ pyRepr full_cmd⟩], full_cmd)
  | .fail msg =>
    (.raised msg
      [⟨DEBUG, "Failed to send command \x27" ++ command ++ "\x27: " ++ msg⟩],
      full_cmd)

/-- `_read_reply` (source lines 129-156): a TCP `socket.timeout` logs a
WARNING and returns `[]`; empty bytes (including a serial timeout, which
surfaces as empty bytes) log a WARNING and return `[]`; a transport
exception logs an ERROR and returns `[]`; otherwise the decoded text is
split into lines, each line is stripped, empty lines are dropped. -/
def _read_reply (conn : ConnType) (outcome : ReadOutcome) : List String × List LogMsg :=
  match outcome, conn with
  | .timeout, .tcp => ([], [⟨WARNING, "TCP read timeout."⟩])
  | .timeout, .serial => ([], [⟨WARNING, "No data received."⟩])
  | .readErr msg, _ => ([], [⟨ERROR, "Failed to read reply: " ++ msg⟩])
  | .bytes raw, _ =>
    if raw = "" then ([], [⟨WARNING, "No data received."⟩])
    else
      (((splitlines raw).map pyStrip).filter (fun l => l ≠ ""),
        [⟨DEBUG, "Raw received: " ++ pyRepr raw⟩])

/-- Result of one `_send_and_read` transaction: the reply lines (or a
re-raised write exception), the log messages emitted, and the payload
written to the transport (`none` when nothing was sent). -/
inductive TxResult where
  | reply (lines : List String) (logs : List LogMsg) (sent : Option String)
  | raised (msg : String) (logs : List LogMsg) (sent : Option String)
  deriving DecidableEq, Repr

/-- Reply lines of a transaction result (empty for a raised one). -/
def TxResult.lines : TxResult → List String
  | .reply l _ _ => l
  | .raised _ _ _ => []

/-- Whether the transaction re-raised a transport write exception. -/
def TxResult.isRaised : TxResult → Bool
  | .reply _ _ _ => false
  | .raised _ _ _ => true

/-- Log messages emitted by a transaction. -/
def TxResult.logs : TxResult → List LogMsg
  | .reply _ l _ => l
  | .raised _ l _ => l

/-- Payload written to the transport by a transaction, `none` when
nothing was written. -/
def TxResult.sentPayload : TxResult → Option String
  | .reply _ _ s => s
  | .raised _ _ s => s

/-- `_send_and_read` (source lines 158-165): when connected, send the
command (re-raising a write failure), sleep the fixed 0.2 s settle delay
(no observable effect in the model), then read the reply; when not
connected, log an ERROR and return `[]` without touching the
transport. -/
def _send_and_read (conn : ConnType) (connected : Bool) (command : String)
    (ev : TransportEvents) : TxResult :=
  if connected then
    match _send_command command ev.write with
    | (.raised msg logs, payload) => .raised msg logs (some payload)
    | (.sent logs, payload) =>
      let rr := _read_reply conn ev.read
      .reply rr.1 (logs ++ rr.2) (some payload)
  else
    .reply []
      [⟨ERROR, "Failed to send command \x27" ++ command ++ "\x27: Not connected"⟩]
      none

/-- Result of a typed accessor call: a parsed value, or a re-raised
transport write exception. -/
inductive AccessorResult where
  | value (v : ParsedValue) (logs : List LogMsg) (sent : Option String)
  | raisedErr (msg : String) (logs : List LogMsg) (sent : Option String)
  deriving DecidableEq, Repr

/-- Returned parsed value of an accessor call, `none` when it raised. -/
def AccessorResult.value? : AccessorResult → Option ParsedValue
  | .value v _ _ => some v
  | .raisedErr _ _ _ => none

/-- Common shape of the typed accessors:
`parse_single_value(self._send_and_read(command))`. -/
def runParsedQuery (command : String) (conn : ConnType) (connected : Bool)
    (ev : TransportEvents) : AccessorResult :=
  match _send_and_read conn connected command ev with
  | .reply lines logs sent => .value (parse_single_value lines) logs sent
  | .raised msg logs sent => .raisedErr msg logs sent

/-- `get_target_temp` (source lines 223-225):
`parse_single_value(self._send_and_read("TTARGET"))`. -/
def get_target_temp (conn : ConnType) (connected : Bool)
    (ev : TransportEvents) : AccessorResult :=
  runParsedQuery "TTARGET" conn connected ev

/-- Engine connection state: the `connected` flag and whether the
underlying transport handle is open. -/
structure EngineState where
  connected : Bool
  handleOpen : Bool
  deriving DecidableEq, Repr

/-- Closing a transport handle. Both `socket.close()` and pyserial's
`Serial.close()` return normally when the handle is already closed
(close is idempotent at the transport), so no exception path is
reachable from `disconnect`; the `Except` result records that a raised
exception would propagate if one occurred. -/
def transportClose (_handleOpen : Bool) : Except String Unit := .ok ()

/-- Successful `connect` (source lines 78-104, success branch only; a
failed open logs an ERROR and re-raises, which no claim exercises):
opens the transport handle, logs at INFO, sets `connected`. -/
def connect (conn : ConnType) (_st : EngineState) : EngineState × List LogMsg :=
  match conn with
  | .serial => (⟨true, true⟩, [⟨INFO, "Serial connection opened: True"⟩])
  | .tcp => (⟨true, true⟩, [⟨INFO, "TCP connection opened"⟩])

/-- `disconnect` (source lines 106-114): close the transport handle
(idempotently, see `transportClose`), log `... connection closed.` at
INFO, clear `connected`. -/
def disconnect (conn : ConnType) (st : EngineState) :
    Except String (EngineState × List LogMsg) :=
  match transportClose st.handleOpen with
  | .error e => .error e
  | .ok _ =>
    match conn with
    | .serial => .ok (⟨false, false⟩, [⟨INFO, "Serial connection closed."⟩])
    | .tcp => .ok (⟨false, false⟩, [⟨INFO, "TCP connection closed."⟩])

/-! Theorems about the embedded program. -/

/-- C2: a second element whose lower-casing is one of the truthy keywords
parses to boolean true, one of the falsey keywords to boolean false; in
particular `["X","TRUE"]`, `["X","true"]`, `["X","On"]` give boolean true
and `["X","0"]` gives boolean false (not integer 0), booleans being
checked before numeric parsing. -/
theorem parse_single_value_bool_keywords :
    (∀ x s : String, pyLower s ∈ truthyTokens →
      parse_single_value [x, s] = .bool true) ∧
    (∀ x s : String, pyLower s ∈ falseyTokens →
      parse_single_value [x, s] = .bool false) ∧
    parse_single_value ["X", "TRUE"] = .bool true ∧
    parse_single_value ["X", "true"] = .bool true ∧
    parse_single_value ["X", "On"] = .bool true ∧
    parse_single_value ["X", "0"] = .bool false := by
  refine ⟨?_, ?_, by decide, by decide, by decide, by decide⟩
  · intro x s h
    show parseToken s = .bool true
    unfold parseToken
    rw [if_pos h]
  · intro x s h
    show parseToken s = .bool false
    simp only [falseyTokens, List.mem_cons, List.not_mem_nil, or_false] at h
    unfold parseToken
    rcases h with h | h | h | h <;> rw [h, if_neg (by decide), if_pos (by decide)]

/-- C2 witness: a concrete case-insensitive truthy token. -/
theorem parse_single_value_bool_keywords_witness :
    parse_single_value ["A", "YeS"] = .bool true :=
  parse_single_value_bool_keywords.1 "A" "YeS" (by decide)

/-- C3: for a non-boolean-keyword second element, integer parsing is
tried before float parsing, with the stripped token as string fallback;
`["X","42"]` gives integer 42, `["X","3.5"]` gives float 3.5 and
`["X","hello"]` gives the string `"hello"`. -/
theorem parse_single_value_numeric_fallthrough :
    (∀ (x s : String) (n : Int), pyLower s ∉ truthyTokens →
      pyLower s ∉ falseyTokens → pyIntParse s = some n →
      parse_single_value [x, s] = .int n) ∧
    (∀ (x s : String) (f : PyFloat), pyLower s ∉ truthyTokens →
      pyLower s ∉ falseyTokens → pyIntParse s = none → pyFloatParse s = some f →
      parse_single_value [x, s] = .float f) ∧
    (∀ x s : String, pyLower s ∉ truthyTokens → pyLower s ∉ falseyTokens →
      pyIntParse s = none → pyFloatParse s = none →
      parse_single_value [x, s] = .str (pyStrip s)) ∧
    parse_single_value ["X", "42"] = .int 42 ∧
    parse_single_value ["X", "3.5"] = .float (.finite (7 / 2)) ∧
    parse_single_value ["X", "hello"] = .str "hello" := by
  refine ⟨?_, ?_, ?_, by decide, ?_, by decide⟩
  · intro x s n h1 h2 h3
    show parseToken s = .int n
    unfold parseToken
    rw [if_neg h1, if_neg h2, h3]
  · intro x s f h1 h2 h3 h4
    show parseToken s = .float f
    unfold parseToken
    rw [if_neg h1, if_neg h2, h3, h4]
  · intro x s h1 h2 h3 h4
    show parseToken s = .str (pyStrip s)
    unfold parseToken
    rw [if_neg h1, if_neg h2, h3, h4]
  · have h : parse_single_value ["X", "3.5"] =
        .float (.finite ((digitsToNat ['3'] : ℚ) +
          (digitsToNat ['5'] : ℚ) / (10 : ℚ) ^ (1 : ℕ))) := rfl
    rw [h, show digitsToNat ['3'] = 3 from rfl, show digitsToNat ['5'] = 5 from rfl]
    simp only [ParsedValue.float.injEq, PyFloat.finite.injEq]
    norm_num

/-- C3 witness: a concrete integer token that is not a boolean keyword. -/
theorem parse_single_value_numeric_fallthrough_witness :
    parse_single_value ["X", "-7"] = .int (-7) :=
  parse_single_value_numeric_fallthrough.1 "X" "-7" (-7)
    (by decide) (by decide) (by decide)

/-- C4: a reply list with fewer than two elements parses to the string
sentinel `"No reply"`, returned normally (no raised error). -/
theorem parse_single_value_short_reply :
    ∀ reply : List String, reply.length < 2 →
      parse_single_value_checked (.pyList reply) = .ok (.str "No reply") := by
  intro reply h
  rcases reply with _ | ⟨a, _ | ⟨b, rest⟩⟩
  · rfl
  · rfl
  · exact absurd h (by simp only [List.length_cons]; omega)

/-- C4 witness: the empty reply list. -/
theorem parse_single_value_short_reply_witness :
    parse_single_value_checked (.pyList []) = .ok (.str "No reply") :=
  parse_single_value_short_reply [] (by decide)

/-- C5: a transaction attempted while disconnected returns the empty
reply list, emits one ERROR-level report, raises nothing (the result is
a normal reply, not a raised exception) and writes nothing to the
transport. -/
theorem send_and_read_not_connected :
    ∀ (conn : ConnType) (command : String) (ev : TransportEvents),
      _send_and_read conn false command ev =
        .reply []
          [⟨ERROR, "Failed to send command \x27" ++ command ++ "\x27: Not connected"⟩]
          none := by
  intro conn command ev
  rfl

/-- C5 witness: a concrete disconnected transaction. -/
theorem send_and_read_not_connected_witness :
    _send_and_read .tcp false "STATUS" ⟨.ok, .bytes "OK\r\n"⟩ =
      .reply []
        [⟨ERROR, "Failed to send command \x27STATUS\x27: Not connected"⟩]
        none :=
  send_and_read_not_connected .tcp "STATUS" ⟨.ok, .bytes "OK\r\n"⟩

/-- C6: a connected transaction whose read times out (TCP) or returns
zero bytes does not raise, returns the empty reply list, still sends the
command, and emits a WARNING-level report. -/
theorem send_and_read_no_reply_warning :
    ∀ (conn : ConnType) (command : String) (r : ReadOutcome),
      (conn = .tcp ∧ r = .timeout) ∨ r = .bytes "" →
      (_send_and_read conn true command ⟨.ok, r⟩).isRaised = false ∧
      (_send_and_read conn true command ⟨.ok, r⟩).lines = [] ∧
      (_send_and_read conn true command ⟨.ok, r⟩).sentPayload =
        some (command ++ "\r") ∧
      (_send_and_read conn true command ⟨.ok, r⟩).logs.any
        (fun m => m.level == WARNING) = true := by
  intro conn command r h
  rcases h with ⟨hc, hr⟩ | hr
  · subst hc; subst hr
    exact ⟨rfl, rfl, rfl, rfl⟩
  · subst hr
    cases conn <;> exact ⟨rfl, rfl, rfl, rfl⟩

/-- C6 witness: a concrete TCP read timeout. -/
theorem send_and_read_no_reply_warning_witness :
    (_send_and_read .tcp true "TC" ⟨.ok, .timeout⟩).isRaised = false ∧
    (_send_and_read .tcp true "TC" ⟨.ok, .timeout⟩).lines = [] ∧
    (_send_and_read .tcp true "TC" ⟨.ok, .timeout⟩).sentPayload =
      some ("TC" ++ "\r") ∧
    (_send_and_read .tcp true "TC" ⟨.ok, .timeout⟩).logs.any
      (fun m => m.level == WARNING) = true :=
  send_and_read_no_reply_warning .tcp "TC" .timeout (Or.inl ⟨rfl, rfl⟩)

/-- C7: a connected transaction hands the transport exactly the command
followed by a single carriage return; when the write fails the exception
is re-raised and the result does not depend on the read outcome (settle
sleep and read are never reached), and on a successful write the same
single-carriage-return payload was transmitted. -/
theorem send_and_read_write_path :
    ∀ (conn : ConnType) (command msg : String) (r : ReadOutcome),
      _send_and_read conn true command ⟨.fail msg, r⟩ =
        .raised msg
          [⟨DEBUG, "Failed to send command \x27" ++ command ++ "\x27: " ++ msg⟩]
          (some (command ++ "\r")) ∧
      (_send_and_read conn true command ⟨.ok, r⟩).sentPayload =
        some (command ++ "\r") := by
  intro conn command msg r
  exact ⟨rfl, rfl⟩

/-- C9: the result of `parse_single_value` on replies of length at least
two depends only on the second element: two such replies agreeing there
parse to the same tagged value. -/
theorem parse_single_value_second_element_determines :
    ∀ r1 r2 : List String, 2 ≤ r1.length → 2 ≤ r2.length →
      r1.get? 1 = r2.get? 1 →
      parse_single_value r1 = parse_single_value r2 := by
  intro r1 r2 _ _ h
  simp only [parse_single_value]
  rw [h]

/-- C9 witness: differing first and trailing elements, equal second
element. -/
theorem parse_single_value_second_element_determines_witness :
    parse_single_value ["A", "42"] = parse_single_value ["B", "42", "junk"] :=
  parse_single_value_second_element_determines ["A", "42"] ["B", "42", "junk"]
    (by decide) (by decide) (by decide)

/-- C10: a non-list argument makes `parse_single_value` raise
`TypeError("reply must be a list")`; the `isinstance` check is the first
statement of the function, before any other processing. -/
theorem parse_single_value_requires_list :
    ∀ arg : PyObj, (∀ xs : List String, arg ≠ .pyList xs) →
      parse_single_value_checked arg = .typeError "reply must be a list" := by
  intro arg h
  cases arg with
  | pyList xs => exact absurd rfl (h xs)
  | pyStr s => rfl
  | pyInt n => rfl
  | pyNone => rfl

/-- C10 witness: a string argument. -/
theorem parse_single_value_requires_list_witness :
    parse_single_value_checked (.pyStr "TTARGET 120.5") =
      .typeError "reply must be a list" :=
  parse_single_value_requires_list (.pyStr "TTARGET 120.5")
    (fun _ h => PyObj.noConfusion h)

/-- C1 counterexample: with the single reply line `"TTARGET 120.5"` the
reply list is `["TTARGET 120.5"]`, whose index 1 raises `IndexError`, so
`get_target_temp` returns the string sentinel `"No reply"` and not the
float 120.5: `parse_single_value` indexes reply lines, not
whitespace-delimited tokens of a line. -/
theorem get_target_temp_single_line_counterexample :
    (get_target_temp .tcp true ⟨.ok, .bytes "TTARGET 120.5\r\n"⟩).value? =
      some (.str "No reply") ∧
    some (ParsedValue.str "No reply") ≠
      some (ParsedValue.float (.finite (241 / 2))) := by
  exact ⟨rfl, by decide⟩

/-- C1 (amended): for every connected engine, if the transport delivers
the reply as an echo line followed by the value line, raw bytes
`"TTARGET\r\n120.5\r\n"`, then `get_target_temp` returns the
floating-point value 120.5. -/
theorem get_target_temp_two_line_reply :
    ∀ conn : ConnType,
      (get_target_temp conn true ⟨.ok, .bytes "TTARGET\r\n120.5\r\n"⟩).value? =
        some (.float (.finite (241 / 2))) := by
  intro conn
  have h : (get_target_temp conn true ⟨.ok, .bytes "TTARGET\r\n120.5\r\n"⟩).value? =
      some (.float (.finite ((digitsToNat ['1', '2', '0'] : ℚ) +
        (digitsToNat ['5'] : ℚ) / (10 : ℚ) ^ (1 : ℕ)))) := by
    cases conn <;> rfl
  rw [h, show digitsToNat ['1', '2', '0'] = 120 from rfl,
    show digitsToNat ['5'] = 5 from rfl]
  simp only [Option.some.injEq, ParsedValue.float.injEq, PyFloat.finite.injEq]
  norm_num

/-- C8 counterexample: after a successful connect-then-disconnect, a
second `disconnect` returns normally and logs only the INFO-level
`connection closed` message; every message it emits is below WARNING, so
no warning-level report is emitted. -/
theorem second_disconnect_counterexample :
    connect .tcp ⟨false, false⟩ =
      (⟨true, true⟩, [⟨INFO, "TCP connection opened"⟩]) ∧
    disconnect .tcp ⟨true, true⟩ =
      .ok (⟨false, false⟩, [⟨INFO, "TCP connection closed."⟩]) ∧
    disconnect .tcp ⟨false, false⟩ =
      .ok (⟨false, false⟩, [⟨INFO, "TCP connection closed."⟩]) ∧
    ([⟨INFO, "TCP connection closed."⟩] : List LogMsg).all
      (fun m => decide (m.level < WARNING)) = true := by
  exact ⟨rfl, rfl, rfl, by decide⟩

/-- C8 (amended): calling disconnect a second time after a successful
connect-then-disconnect emits an INFO-level report (the same
`connection closed` message as the first call) and does not raise an
exception. -/
theorem second_disconnect_info_level :
    disconnect .tcp ⟨false, false⟩ =
      .ok (⟨false, false⟩, [⟨INFO, "TCP connection closed."⟩]) ∧
    disconnect .serial ⟨false, false⟩ =
      .ok (⟨false, false⟩, [⟨INFO, "Serial connection closed."⟩]) ∧
    INFO < WARNING :=
  ⟨rfl, rfl, by decide⟩

end Sunpower
